import Mathlib

/-!
Verification of the MediAI hospital triage-and-allocation engine
(source file: hopital_management.py).

The four core components are shallowly embedded as pure Lean functions:
`PrologExpertSystem.diagnose` becomes `diagnose`, `CSPScheduler.schedule_appointment`
becomes `schedule_appointment`, `CSPScheduler.allocate_bed` becomes `allocate_bed`
(the shared class attribute `CSPScheduler.BEDS` is passed as explicit state and
returned alongside the result), and `GeneticAlgorithmRoster.generate_optimized_roster`
becomes `generate_optimized_roster` (the `random.randint(5, 7)` draws are supplied
by an oracle `g : Nat -> Nat`, one draw per roster cell).

Wall-clock timestamps (`datetime.now()`, `timedelta`, `.replace(hour, minute)`)
are modelled as a count of seconds; the `datetime.replace` call keeps the
calendar day and the second-of-minute, exactly as in the source.  Monetary
amounts in the roster are modelled as rationals: every value the source
computes with float arithmetic here is an integer multiple of 1/2, so float
evaluation is exact and agrees with the rational model.
-/

/-- The dictionary returned by `PrologExpertSystem.diagnose`. -/
structure DiagnosisResult where
  urgency : String
  priority : Nat
  specialty : String
  disease : String
  doctor : String
  color : String
deriving Repr, DecidableEq

/-- Python `str.lower()`: lower-case a string character by character. -/
def pyLower (s : String) : String := ⟨s.data.map Char.toLower⟩

/-- `PrologExpertSystem.diagnose(symptoms, age)`: a first-match decision list.
Symptoms are lower-cased once; each rule tests exact membership of its trigger
symptoms in the lower-cased set. -/
def diagnose (symptoms : List String) (age : Nat) : DiagnosisResult :=
  let symptom_set := symptoms.map pyLower
  -- 1. Emergency rules - Highest priority
  if ["chest pain", "heart palpitations", "heart attack"].any symptom_set.contains then
    { urgency := "Emergency", priority := 10, specialty := "Cardiology",
      disease := "Possible Cardiac Event", doctor := "Dr. Sarah Johnson", color := "#ef4444" }
  -- 2. High priority neurological rules
  else if ["severe headache", "dizziness", "confusion", "seizure"].any symptom_set.contains then
    { urgency := "High", priority := 8, specialty := "Neurology",
      disease := "Neurological Concern", doctor := "Dr. Michael Chen", color := "#f97316" }
  -- 3. Pediatric rules
  else if age < 18 ∨ ["child", "infant", "baby"].any symptom_set.contains then
    { urgency := "Medium", priority := 6, specialty := "Pediatrics",
      disease := "Pediatric Consultation", doctor := "Dr. Robert Lee", color := "#3b82f6" }
  -- 4. Medium priority respiratory rules
  else if "fever" ∈ symptom_set ∧ "cough" ∈ symptom_set then
    { urgency := "Medium", priority := 5, specialty := "General Medicine",
      disease := "Respiratory Infection", doctor := "Dr. Emily Davis", color := "#eab308" }
  -- 5. High Priority Respiratory - Difficulty Breathing
  else if ["difficulty breathing", "shortness of breath", "wheezing"].any symptom_set.contains then
    { urgency := "Emergency", priority := 9, specialty := "Respiratory Medicine",
      disease := "Acute Respiratory Distress", doctor := "Dr. Sarah Johnson", color := "#ef4444" }
  -- 6. Gastrointestinal Rules
  else if ["abdominal pain", "blood in stool", "vomiting"].any symptom_set.contains then
    { urgency := "High", priority := 7, specialty := "Gastroenterology",
      disease := "Gastrointestinal Disorder", doctor := "Dr. Michael Chen", color := "#f97316" }
  -- 7. Musculoskeletal / Orthopedic Rules
  else if ["joint pain", "back pain", "limited mobility", "stiffness"].any symptom_set.contains then
    { urgency := "Medium", priority := 5, specialty := "Orthopedics",
      disease := "Musculoskeletal Issue", doctor := "Dr. Anna Martinez", color := "#8b5cf6" }
  -- 8. Dermatological Rules
  else if ["rash", "skin lesions", "hives", "skin discoloration"].any symptom_set.contains then
    { urgency := "Low", priority := 4, specialty := "Dermatology",
      disease := "Dermatological Condition", doctor := "Dr. Emily Davis", color := "#06b6d4" }
  -- 9. Psychological / Psychiatric Rules
  else if ["depression", "anxiety", "insomnia"].any symptom_set.contains then
    { urgency := "Medium", priority := 5, specialty := "Psychiatry",
      disease := "Mental Health Consultation", doctor := "Dr. Robert Lee", color := "#6366f1" }
  -- Default case - Low priority
  else
    { urgency := "Low", priority := 3, specialty := "General Medicine",
      disease := "General Checkup", doctor := "Dr. Emily Davis", color := "#22c55e" }

/-- Timestamps are whole seconds since an epoch that starts at midnight. -/
abbrev Timestamp := Nat

/-- Calendar day index of a timestamp. -/
def tsDay (t : Timestamp) : Nat := t / 86400

/-- Hour-of-day of a timestamp. -/
def tsHour (t : Timestamp) : Nat := t % 86400 / 3600

/-- Minute-of-hour of a timestamp. -/
def tsMinute (t : Timestamp) : Nat := t % 3600 / 60

/-- Second-of-minute of a timestamp. -/
def tsSecond (t : Timestamp) : Nat := t % 60

/-- `datetime.replace(hour=h, minute=m)`: keeps the calendar day and the
second-of-minute, overwrites the hour and the minute. -/
def replaceHourMinute (t : Timestamp) (h m : Nat) : Timestamp :=
  tsDay t * 86400 + h * 3600 + m * 60 + tsSecond t

/-- `CSPScheduler.ROOMS`, the specialty-to-room table. -/
def ROOMS : List (String × String) :=
  [("Cardiology", "CCU-201"), ("Neurology", "Neuro-305"), ("Pediatrics", "Pediatric-102"),
   ("General Medicine", "OPD-15"), ("Orthopedics", "Ortho-204")]

/-- `CSPScheduler.ROOMS.get(specialty, default)` with the default room
used by `schedule_appointment`. -/
def roomsGet (specialty : String) : String :=
  match ROOMS.find? (fun p => p.1 == specialty) with
  | some p => p.2
  | none => "OPD-10"

/-- The dictionary returned by `CSPScheduler.schedule_appointment`. -/
structure Appointment where
  patient : String
  doctor : String
  specialty : String
  time : Timestamp
  room : String
  duration : Nat
  urgency : String
deriving Repr, DecidableEq

/-- `CSPScheduler.schedule_appointment(diagnosis, patient_name)`; the ambient
`datetime.now()` is the explicit parameter `now`. -/
def schedule_appointment (diagnosis : DiagnosisResult) (patient_name : String)
    (now : Timestamp) : Appointment :=
  let td :=
    if diagnosis.urgency = "Emergency" then (now + 15 * 60, 60)
    else if diagnosis.urgency = "High" then (now + 60 * 60, 45)
    else if diagnosis.urgency = "Medium" then (now + 3 * 60 * 60, 30)
    else (replaceHourMinute (now + 86400) 9 0, 30)
  { patient := patient_name, doctor := diagnosis.doctor, specialty := diagnosis.specialty,
    time := td.1, room := roomsGet diagnosis.specialty, duration := td.2,
    urgency := diagnosis.urgency }

/-- A bed of `CSPScheduler.BEDS`; beds without a `gender` key have `gender := none`. -/
structure Bed where
  id : String
  ward : String
  type : String
  gender : Option String
  available : Bool
deriving Repr, DecidableEq

/-- The shared bed pool, `CSPScheduler.BEDS`, with its three categories. -/
structure BedPool where
  emergency : List Bed
  high : List Bed
  pediatric : List Bed
deriving Repr, DecidableEq

/-- The initial contents of `CSPScheduler.BEDS`. -/
def initBEDS : BedPool where
  emergency :=
    [{ id := "ICU-1", ward := "ICU", type := "Critical", gender := none, available := true },
     { id := "ICU-2", ward := "ICU", type := "Critical", gender := none, available := true },
     { id := "ICU-3", ward := "ICU", type := "Critical", gender := none, available := false }]
  high :=
    [{ id := "GW-201", ward := "General Ward A", type := "Standard",
       gender := some "male", available := true },
     { id := "GW-202", ward := "General Ward A", type := "Standard",
       gender := some "female", available := true },
     { id := "ISO-101", ward := "Isolation", type := "Isolation",
       gender := none, available := true }]
  pediatric :=
    [{ id := "PED-1", ward := "Pediatric Ward", type := "Child", gender := none, available := true },
     { id := "PED-2", ward := "Pediatric Ward", type := "Child", gender := none, available := true }]

/-- The `bed` value inside the dictionary returned by `allocate_bed`: either a
projection of a pool bed or the waitlist sentinel. -/
structure AllocatedBed where
  id : String
  ward : String
  type : String
deriving Repr, DecidableEq

/-- The dictionary returned by `CSPScheduler.allocate_bed`. -/
structure BedAssignment where
  patient : String
  bed : AllocatedBed
  assigned_at : Timestamp
  estimated_stay : String
deriving Repr, DecidableEq

/-- The general-ward eligibility test of constraint 3 of `allocate_bed`:
`b['available'] and ('gender' not in b or b['gender'] == gender)`. -/
def bedMatchesGender (gender : String) (b : Bed) : Bool :=
  b.available && (match b.gender with
                  | none => true
                  | some g => g == gender)

/-- `CSPScheduler.allocate_bed(diagnosis, patient_name, age, gender)`.  The class
attribute `BEDS` is threaded as explicit state; the source contains no assignment
to any `available` flag, so the pool comes back unchanged.  `datetime.now()` is
the explicit parameter `now`. -/
def allocate_bed (diagnosis : DiagnosisResult) (patient_name : String) (age : Nat)
    (gender : String) (now : Timestamp) (pool : BedPool) : BedAssignment × BedPool :=
  let allocated : Option Bed :=
    -- Constraint 1: Emergency cases get ICU
    if diagnosis.urgency = "Emergency" then
      pool.emergency.find? (fun b => b.available)
    -- Constraint 2: Children get pediatric ward
    else if diagnosis.specialty = "Pediatrics" ∨ age < 18 then
      pool.pediatric.find? (fun b => b.available)
    -- Constraint 3: Gender-appropriate general ward
    else
      pool.high.find? (bedMatchesGender gender)
  let bed : AllocatedBed :=
    match allocated with
    | some b => { id := b.id, ward := b.ward, type := b.type }
    | none => { id := "WAIT-LIST", ward := "Waiting Queue", type := "Queue" }
  let estimated_stay := if diagnosis.urgency = "Emergency" then "3-5 days" else "1-2 days"
  ({ patient := patient_name, bed := bed, assigned_at := now,
     estimated_stay := estimated_stay },
   pool)

/-- A doctor of the fixed `GeneticAlgorithmRoster.DOCTORS` catalog. -/
structure Doctor where
  name : String
  specialty : String
  cost_per_hour : Nat
deriving Repr, DecidableEq

/-- `GeneticAlgorithmRoster.DOCTORS`, the fixed 10-doctor catalog. -/
def DOCTORS : List Doctor :=
  [{ name := "Dr. Sarah Johnson", specialty := "Cardiology", cost_per_hour := 150 },
   { name := "Dr. Michael Chen", specialty := "Neurology", cost_per_hour := 140 },
   { name := "Dr. Emily Davis", specialty := "General Medicine", cost_per_hour := 100 },
   { name := "Dr. Robert Lee", specialty := "Pediatrics", cost_per_hour := 120 },
   { name := "Dr. Anna Martinez", specialty := "Orthopedics", cost_per_hour := 130 },
   { name := "Dr. James Wilson", specialty := "Respiratory Medicine", cost_per_hour := 145 },
   { name := "Dr. Linda Sophia", specialty := "Gastroenterology", cost_per_hour := 135 },
   { name := "Dr. Kevin Park", specialty := "Dermatology", cost_per_hour := 110 },
   { name := "Dr. Rachel Adams", specialty := "Psychiatry", cost_per_hour := 125 },
   { name := "Dr. Steven Wright", specialty := "Other", cost_per_hour := 95 }]

/-- `GeneticAlgorithmRoster.SHIFTS`. -/
def SHIFTS : List String := ["Morning (8AM-2PM)", "Afternoon (2PM-8PM)", "Night (8PM-2AM)"]

/-- `GeneticAlgorithmRoster.DAYS`. -/
def DAYS : List String :=
  ["Monday", "Tuesday", "Wednesday", "Thursday", "Friday", "Saturday", "Sunday"]

/-- One cell of the weekly roster, as built inside the day/shift loops. -/
structure RosterEntry where
  day : String
  shift : String
  doctor : String
  specialty : String
  patients : Nat
  cost : ℚ
  revenue : ℚ
deriving Repr, DecidableEq

/-- The metrics dictionary of `generate_optimized_roster` (numeric values;
the source only formats them to two decimals afterwards). -/
structure RosterMetrics where
  total_cost : ℚ
  total_revenue : ℚ
  profit : ℚ
  avg_patients : ℚ
deriving Repr, DecidableEq

/-- Fallback values for out-of-range list indexing; never reached for
indices below the list lengths. -/
def defaultDoctor : Doctor := { name := "", specialty := "", cost_per_hour := 0 }

/-- Fallback roster entry for out-of-range indexing in statements. -/
def defaultEntry : RosterEntry :=
  { day := "", shift := "", doctor := "", specialty := "", patients := 0, cost := 0, revenue := 0 }

/-- `random.randint(5, 7)` for the cell with flat index `cell`: the oracle `g`
supplies the entropy, and every draw lies in `[5, 7]`, as `randint` guarantees. -/
def randint57 (g : Nat → Nat) (cell : Nat) : Nat := 5 + g cell % 3

/-- The body of the inner loop of `generate_optimized_roster` for day index
`day_idx` and shift index `shift_idx`. -/
def rosterCell (g : Nat → Nat) (day_idx shift_idx : Nat) : RosterEntry :=
  let doctor := DOCTORS.getD ((day_idx * 3 + shift_idx) % DOCTORS.length) defaultDoctor
  let patients := randint57 g (day_idx * 3 + shift_idx)
  { day := DAYS.getD day_idx "", shift := SHIFTS.getD shift_idx "",
    doctor := doctor.name, specialty := doctor.specialty, patients := patients,
    cost := (patients * doctor.cost_per_hour : ℚ) / 2,
    revenue := (patients : ℚ) * 80 }

/-- `GeneticAlgorithmRoster.generate_optimized_roster()`: the nested
day-by-day roster together with the aggregate metrics computed from the
flattened roster. -/
def generate_optimized_roster (g : Nat → Nat) : List (List RosterEntry) × RosterMetrics :=
  let roster := (List.range 7).map (fun d => (List.range 3).map (fun s => rosterCell g d s))
  let flat_roster := roster.flatten
  let total_cost := (flat_roster.map RosterEntry.cost).sum
  let total_revenue := (flat_roster.map RosterEntry.revenue).sum
  let profit := total_revenue - total_cost
  let avg_patients := ((flat_roster.map RosterEntry.patients).sum : ℚ) / flat_roster.length
  (roster,
   { total_cost := total_cost, total_revenue := total_revenue, profit := profit,
     avg_patients := avg_patients })

/-! ## Theorems about the embedded engine -/

/-- Helper: every roster cell's patient count lies in `[5, 7]`, because
`randint(5, 7)` draws are of the form `5 + k` with `k < 3`. -/
theorem rosterCell_patients_bounds (g : Nat → Nat) (d s : Nat) :
    5 ≤ (rosterCell g d s).patients ∧ (rosterCell g d s).patients ≤ 7 := by
  have h : g (d * 3 + s) % 3 < 3 := Nat.mod_lt _ (by omega)
  simp only [rosterCell, randint57]
  omega

/-- Claim C1: the claim says a successful allocation flips the chosen bed's
`available` flag to false.  The source never assigns to any `available` flag:
`allocate_bed` returns the pool unchanged for every input, and after the
concrete Emergency allocation that returns the real bed ICU-1, that bed's
`available` flag is still `true`. -/
theorem C1_allocate_never_mutates_pool :
    (∀ (diagnosis : DiagnosisResult) (patient_name : String) (age : Nat)
       (gender : String) (now : Timestamp) (pool : BedPool),
       (allocate_bed diagnosis patient_name age gender now pool).2 = pool) ∧
    (allocate_bed (diagnose ["chest pain"] 40) "p" 40 "male" 0 initBEDS).1.bed.id = "ICU-1" ∧
    ((allocate_bed (diagnose ["chest pain"] 40) "p" 40 "male" 0 initBEDS).2.emergency.find?
        (fun b => b.id == "ICU-1")).map Bed.available = some true :=
  ⟨fun _ _ _ _ _ _ => rfl, by decide, by decide⟩

/-- Claim C2: the claim says no bed id is ever returned twice and that calls
beyond category capacity return the waitlist sentinel.  On a fresh pool the
Emergency category has exactly two available beds, yet three successive
Emergency allocations all return bed ICU-1: the same id is handed to
different patients and the over-capacity call does not return WAIT-LIST. -/
theorem C2_repeated_allocation_returns_same_bed :
    (allocate_bed (diagnose ["chest pain"] 40) "p1" 40 "male" 0 initBEDS).1.bed.id = "ICU-1" ∧
    (allocate_bed (diagnose ["chest pain"] 41) "p2" 41 "male" 60
        (allocate_bed (diagnose ["chest pain"] 40) "p1" 40 "male" 0 initBEDS).2).1.bed.id
      = "ICU-1" ∧
    (allocate_bed (diagnose ["chest pain"] 42) "p3" 42 "male" 120
        (allocate_bed (diagnose ["chest pain"] 41) "p2" 41 "male" 60
          (allocate_bed (diagnose ["chest pain"] 40) "p1" 40 "male" 0 initBEDS).2).2).1.bed.id
      = "ICU-1" ∧
    (initBEDS.emergency.filter (fun b => b.available)).length = 2 := by
  decide

/-- Claim C3, counterexample: the claim says any symptom set with an emergency
respiratory signal and no cardiac signal yields the Emergency respiratory
outcome regardless of age.  For symptoms `["difficulty breathing"]` at age 10
the pediatric rule fires first: the outcome is Pediatrics/Medium, not the
Emergency respiratory outcome. -/
theorem C3_counterexample :
    (diagnose ["difficulty breathing"] 10).specialty = "Pediatrics" ∧
    (diagnose ["difficulty breathing"] 10).urgency ≠ "Emergency" := by decide

/-- Claim C3, amended: the rule order is cardiac, neurological, pediatric
(age or child/infant/baby token), fever-and-cough, respiratory, gastro,
musculoskeletal, dermatological, psychiatric, default.  A symptom set with an
emergency respiratory signal yields the Emergency respiratory outcome only
when no cardiac signal, no neurological signal, no child/infant/baby token,
not both fever and cough, and age at least 18. -/
theorem C3_respiratory_rule_after_pediatric (symptoms : List String) (age : Nat)
    (h1 : (["chest pain", "heart palpitations", "heart attack"].any
        (symptoms.map pyLower).contains) = false)
    (h2 : (["severe headache", "dizziness", "confusion", "seizure"].any
        (symptoms.map pyLower).contains) = false)
    (h3 : 18 ≤ age)
    (h4 : (["child", "infant", "baby"].any (symptoms.map pyLower).contains) = false)
    (h5 : ¬("fever" ∈ symptoms.map pyLower ∧ "cough" ∈ symptoms.map pyLower))
    (h6 : (["difficulty breathing", "shortness of breath", "wheezing"].any
        (symptoms.map pyLower).contains) = true) :
    diagnose symptoms age =
      { urgency := "Emergency", priority := 9, specialty := "Respiratory Medicine",
        disease := "Acute Respiratory Distress", doctor := "Dr. Sarah Johnson",
        color := "#ef4444" } := by
  have n1 : ¬ ((["chest pain", "heart palpitations", "heart attack"].any
      (symptoms.map pyLower).contains) = true) := by simp [h1]
  have n2 : ¬ ((["severe headache", "dizziness", "confusion", "seizure"].any
      (symptoms.map pyLower).contains) = true) := by simp [h2]
  have n3 : ¬ (age < 18 ∨ (["child", "infant", "baby"].any
      (symptoms.map pyLower).contains) = true) := by
    intro hd
    rcases hd with hd | hd
    · omega
    · rw [h4] at hd
      exact absurd hd (by simp)
  simp only [diagnose]
  rw [if_neg n1, if_neg n2, if_neg n3, if_neg h5, if_pos h6]

/-- Claim C3, witness: a 30-year-old with wheezing only gets the Emergency
respiratory outcome. -/
theorem C3_witness :
    diagnose ["wheezing"] 30 =
      { urgency := "Emergency", priority := 9, specialty := "Respiratory Medicine",
        disease := "Acute Respiratory Distress", doctor := "Dr. Sarah Johnson",
        color := "#ef4444" } :=
  C3_respiratory_rule_after_pediatric ["wheezing"] 30 (by decide) (by decide) (by decide)
    (by decide) (by decide) (by decide)

/-- Claim C4, counterexample: the dermatological rule produces urgency Low with
priority 4, outside the claimed Low band `[0, 3]`. -/
theorem C4_counterexample :
    (diagnose ["rash"] 30).urgency = "Low" ∧ ¬ ((diagnose ["rash"] 30).priority ≤ 3) := by
  decide

/-- Claim C4, amended: for every input the priority lies in the band of its
urgency with bands Emergency `[9, 10]`, High `[7, 8]`, Medium `[4, 6]` and
Low `[0, 4]` (the dermatological Low outcome has priority 4). -/
theorem C4_priority_bands (symptoms : List String) (age : Nat) :
    ((diagnose symptoms age).urgency = "Emergency" →
       9 ≤ (diagnose symptoms age).priority ∧ (diagnose symptoms age).priority ≤ 10) ∧
    ((diagnose symptoms age).urgency = "High" →
       7 ≤ (diagnose symptoms age).priority ∧ (diagnose symptoms age).priority ≤ 8) ∧
    ((diagnose symptoms age).urgency = "Medium" →
       4 ≤ (diagnose symptoms age).priority ∧ (diagnose symptoms age).priority ≤ 6) ∧
    ((diagnose symptoms age).urgency = "Low" → (diagnose symptoms age).priority ≤ 4) := by
  simp only [diagnose]
  split_ifs <;> decide

/-- Claim C4, witness: the Emergency band holds at a concrete cardiac input. -/
theorem C4_witness :
    9 ≤ (diagnose ["chest pain"] 30).priority ∧ (diagnose ["chest pain"] 30).priority ≤ 10 :=
  (C4_priority_bands ["chest pain"] 30).1 (by decide)

/-- Claim C5: any symptom set containing "chest pain" up to case yields
urgency Emergency, priority 10 and specialty Cardiology, for every age. -/
theorem C5_chest_pain_emergency (symptoms : List String) (age : Nat)
    (h : ∃ s ∈ symptoms, pyLower s = "chest pain") :
    (diagnose symptoms age).urgency = "Emergency" ∧
    (diagnose symptoms age).priority = 10 ∧
    (diagnose symptoms age).specialty = "Cardiology" := by
  obtain ⟨s, hs, hl⟩ := h
  have hm : "chest pain" ∈ symptoms.map pyLower := List.mem_map.mpr ⟨s, hs, hl⟩
  have hc : (symptoms.map pyLower).contains "chest pain" = true := List.elem_iff.mpr hm
  have hcond : (["chest pain", "heart palpitations", "heart attack"].any
      (symptoms.map pyLower).contains) = true := by
    simp only [List.any_cons, List.any_nil, hc, Bool.true_or]
  simp only [diagnose, hcond, if_true]
  simp

/-- Claim C5, witness: mixed-case "Chest Pain" at age 77. -/
theorem C5_witness :
    (diagnose ["Chest Pain"] 77).urgency = "Emergency" ∧
    (diagnose ["Chest Pain"] 77).priority = 10 ∧
    (diagnose ["Chest Pain"] 77).specialty = "Cardiology" :=
  C5_chest_pain_emergency ["Chest Pain"] 77 ⟨"Chest Pain", by decide, by decide⟩

/-- Claim C6, counterexample: the claim says the Low-urgency appointment is at
exactly 09:00 on the next day.  `replace(hour=9, minute=0)` keeps the
second-of-minute of `now`: with `now` at second 30 of the epoch, the
appointment lands at 09:00:30, not exactly 09:00. -/
theorem C6_counterexample :
    tsHour ((schedule_appointment (diagnose [] 30) "p" 30).time) = 9 ∧
    tsMinute ((schedule_appointment (diagnose [] 30) "p" 30).time) = 0 ∧
    tsSecond ((schedule_appointment (diagnose [] 30) "p" 30).time) = 30 ∧
    tsSecond ((schedule_appointment (diagnose [] 30) "p" 30).time) ≠ 0 := by decide

/-- Claim C6, amended: Emergency is placed at exactly now+15min with duration
60, High at now+1h with duration 45, Medium at now+3h with duration 30, and
every other urgency on the next calendar day at hour 9, minute 0, with the
second-of-minute inherited from `now`, duration 30. -/
theorem C6_urgency_latency_bands (diagnosis : DiagnosisResult) (p : String) (now : Timestamp) :
    (diagnosis.urgency = "Emergency" →
       (schedule_appointment diagnosis p now).time = now + 900 ∧
       (schedule_appointment diagnosis p now).duration = 60) ∧
    (diagnosis.urgency = "High" →
       (schedule_appointment diagnosis p now).time = now + 3600 ∧
       (schedule_appointment diagnosis p now).duration = 45) ∧
    (diagnosis.urgency = "Medium" →
       (schedule_appointment diagnosis p now).time = now + 10800 ∧
       (schedule_appointment diagnosis p now).duration = 30) ∧
    (diagnosis.urgency ≠ "Emergency" → diagnosis.urgency ≠ "High" →
     diagnosis.urgency ≠ "Medium" →
       tsDay (schedule_appointment diagnosis p now).time = tsDay now + 1 ∧
       tsHour (schedule_appointment diagnosis p now).time = 9 ∧
       tsMinute (schedule_appointment diagnosis p now).time = 0 ∧
       tsSecond (schedule_appointment diagnosis p now).time = tsSecond now ∧
       (schedule_appointment diagnosis p now).duration = 30) := by
  refine ⟨fun h => ?_, fun h => ?_, fun h => ?_, fun h1 h2 h3 => ?_⟩
  · simp [schedule_appointment, h]
  · have h1 : diagnosis.urgency ≠ "Emergency" := by simp [h]
    simp [schedule_appointment, h, h1]
  · have h1 : diagnosis.urgency ≠ "Emergency" := by simp [h]
    have h2 : diagnosis.urgency ≠ "High" := by simp [h]
    simp [schedule_appointment, h, h1, h2]
  · simp only [schedule_appointment, if_neg h1, if_neg h2, if_neg h3,
      replaceHourMinute, tsDay, tsHour, tsMinute, tsSecond]
    refine ⟨?_, ?_, ?_, ?_, ?_⟩ <;> first | omega | trivial

/-- Claim C6, witness: a default Low diagnosis at epoch second 30 is placed on
calendar day 1 at 09:00:30 with duration 30. -/
theorem C6_witness :
    tsDay ((schedule_appointment (diagnose [] 30) "p" 30).time) = 1 ∧
    tsHour ((schedule_appointment (diagnose [] 30) "p" 30).time) = 9 ∧
    tsMinute ((schedule_appointment (diagnose [] 30) "p" 30).time) = 0 ∧
    tsSecond ((schedule_appointment (diagnose [] 30) "p" 30).time) = 30 ∧
    (schedule_appointment (diagnose [] 30) "p" 30).duration = 30 :=
  (C6_urgency_latency_bands (diagnose [] 30) "p" 30).2.2.2 (by decide) (by decide) (by decide)

/-- Claim C7: for every draw oracle, the weekly roster has exactly 21 cells,
every patient count lies in `[5, 7]`, the doctor of cell `(d, s)` is catalog
entry `(d*3+s) mod 10`, and the profit metric equals total revenue minus
total cost exactly. -/
theorem C7_roster_invariants (g : Nat → Nat) :
    (generate_optimized_roster g).1.flatten.length = 21 ∧
    (∀ e ∈ (generate_optimized_roster g).1.flatten,
       5 ≤ e.patients ∧ e.patients ≤ 7) ∧
    (∀ d s : Nat, d < 7 → s < 3 →
       ((generate_optimized_roster g).1.flatten.getD (d * 3 + s) defaultEntry).doctor =
         (DOCTORS.getD ((d * 3 + s) % 10) defaultDoctor).name) ∧
    (generate_optimized_roster g).2.profit =
      (generate_optimized_roster g).2.total_revenue -
        (generate_optimized_roster g).2.total_cost := by
  refine ⟨rfl, ?_, ?_, rfl⟩
  · intro e he
    simp only [generate_optimized_roster, List.mem_flatten, List.mem_map,
      List.mem_range] at he
    obtain ⟨l, ⟨d, hd, rfl⟩, hel⟩ := he
    obtain ⟨s, hs, rfl⟩ := List.mem_map.mp hel
    exact rosterCell_patients_bounds g d s
  · intro d s hd hs
    interval_cases d <;> interval_cases s <;> rfl

/-- Claim C7, witness: with the zero oracle, cell (1, 2) — flat index 5 — is
staffed by catalog entry 5. -/
theorem C7_witness :
    ((generate_optimized_roster (fun _ => 0)).1.flatten.getD 5 defaultEntry).doctor =
      "Dr. James Wilson" :=
  (C7_roster_invariants (fun _ => 0)).2.2.1 1 2 (by decide) (by decide)

/-- Claim C8: when the diagnosis specialty is absent from the room table,
scheduling still succeeds and places the appointment in default room OPD-10. -/
theorem C8_unmapped_specialty_default_room (diagnosis : DiagnosisResult) (p : String)
    (now : Timestamp) (h : ∀ pair ∈ ROOMS, pair.1 ≠ diagnosis.specialty) :
    (schedule_appointment diagnosis p now).room = "OPD-10" := by
  have hf : ROOMS.find? (fun q => q.1 == diagnosis.specialty) = none := by
    rw [List.find?_eq_none]
    intro q hq
    simpa using h q hq
  simp [schedule_appointment, roomsGet, hf]

/-- Claim C8, witness: Psychiatry is unmapped, so an anxiety diagnosis is
scheduled into OPD-10. -/
theorem C8_witness :
    (schedule_appointment (diagnose ["anxiety"] 30) "p" 0).room = "OPD-10" :=
  C8_unmapped_specialty_default_room (diagnose ["anxiety"] 30) "p" 0 (by decide)

/-- Claim C9: a patient under 18 is always routed to Cardiology, Neurology or
Pediatrics — the pediatric age rule precedes every symptom-combination rule. -/
theorem C9_minor_triage_specialties (symptoms : List String) (age : Nat) (h : age < 18) :
    (diagnose symptoms age).specialty = "Cardiology" ∨
    (diagnose symptoms age).specialty = "Neurology" ∨
    (diagnose symptoms age).specialty = "Pediatrics" := by
  simp only [diagnose]
  split_ifs with h1 h2 h3 <;> simp_all

/-- Claim C9, witness: a 10-year-old with fever is routed to Pediatrics. -/
theorem C9_witness :
    (diagnose ["fever"] 10).specialty = "Cardiology" ∨
    (diagnose ["fever"] 10).specialty = "Neurology" ∨
    (diagnose ["fever"] 10).specialty = "Pediatrics" :=
  C9_minor_triage_specialties ["fever"] 10 (by decide)

/-- Claim C10: a non-Emergency, non-Pediatrics adult whose gender is neither
"male" nor "female" can only receive the un-gendered isolation bed ISO-101
or the waitlist sentinel from a fresh pool. -/
theorem C10_other_gender_isolation_or_waitlist (diagnosis : DiagnosisResult) (p : String)
    (age : Nat) (gender : String) (now : Timestamp)
    (h1 : diagnosis.urgency ≠ "Emergency") (h2 : diagnosis.specialty ≠ "Pediatrics")
    (h3 : 18 ≤ age) (h4 : gender ≠ "male") (h5 : gender ≠ "female") :
    (allocate_bed diagnosis p age gender now initBEDS).1.bed.id = "ISO-101" ∨
    (allocate_bed diagnosis p age gender now initBEDS).1.bed.id = "WAIT-LIST" := by
  left
  have hage : ¬ age < 18 := by omega
  have hm : ("male" == gender) = false := beq_eq_false_iff_ne.mpr (Ne.symm h4)
  have hf : ("female" == gender) = false := beq_eq_false_iff_ne.mpr (Ne.symm h5)
  simp [allocate_bed, initBEDS, bedMatchesGender, List.find?, if_neg h1, h2, hage, hm, hf]

/-- Claim C10, witness: an adult psychiatric patient with gender "other" gets
the isolation bed ISO-101. -/
theorem C10_witness :
    (allocate_bed (diagnose ["anxiety"] 40) "p" 40 "other" 0 initBEDS).1.bed.id = "ISO-101" ∨
    (allocate_bed (diagnose ["anxiety"] 40) "p" 40 "other" 0 initBEDS).1.bed.id = "WAIT-LIST" :=
  C10_other_gender_isolation_or_waitlist (diagnose ["anxiety"] 40) "p" 40 "other" 0
    (by decide) (by decide) (by decide) (by decide) (by decide)
